import Mathlib

/-
  Verification of the TigerBot chat gateway (`apps/deprecated/api.py`).

  The Python source is shallowly embedded below.  Text is modelled as
  `List Char` (`Str`), Python's dict-based `generation_kwargs` as a record
  of optional fields, and the HTTP handler bodies as pure Lean functions
  over that data.  The model's token-generation capability is opaque to the
  gateway, so the handlers are modelled up to (and after) the model call:
  the part of each handler that parses and resolves parameters, renders the
  prompt, folds history, post-processes decoded text and frames wire
  events.
-/

/-- Python text is modelled as a list of characters. -/
abbrev Str := List Char

/-- Python `s.lstrip(chars)`: drop the longest leading run of characters
drawn from `cs`. -/
def pyLstripChars (cs : List Char) (s : Str) : Str :=
  s.dropWhile (· ∈ cs)

/-- Python `s.rstrip(chars)`: drop the longest trailing run of characters
drawn from `cs`. -/
def pyRstripChars (cs : List Char) (s : Str) : Str :=
  (s.reverse.dropWhile (· ∈ cs)).reverse

/-- The characters Python's no-argument `str.strip()` removes. -/
def pyWhitespace : List Char := [' ', '\t', '\n', '\x0b', '\x0c', '\r']

/-- Python `s.strip()` with no argument: strip whitespace from both ends. -/
def pyStrip (s : Str) : Str :=
  pyRstripChars pyWhitespace (pyLstripChars pyWhitespace s)

/-! ## PromptBuilder: `get_prompt` (api.py lines 70-78) -/

/-- One full instruction/response block for a past turn
`(old_query, response)`:
`"\n\n### Instruction:\n{old_query}\n\n### Response:\n{response}"`. -/
def turnBlock (t : Str × Str) : Str :=
  "\n\n### Instruction:\n".data ++ t.1 ++ "\n\n### Response:\n".data ++ t.2

/-- The final instruction block for the current query, with an empty
response slot: `"\n\n### Instruction:\n{query}\n\n### Response:\n"`. -/
def finalBlock (q : Str) : Str :=
  "\n\n### Instruction:\n".data ++ q ++ "\n\n### Response:\n".data

/-- `get_prompt(query, history)` from api.py lines 70-78.  A `None` or empty
history (Python `if not history`) is modelled as the empty list. -/
def get_prompt (query : Str) (history : List (Str × Str)) : Str :=
  if history.isEmpty then
    finalBlock query
  else
    (history.foldl (fun acc t => acc ++ turnBlock t) []) ++ finalBlock query

/-- Concatenation of a list of strings. -/
def strJoin (l : List Str) : Str := l.foldr (· ++ ·) []

lemma strJoin_append (l₁ l₂ : List Str) :
    strJoin (l₁ ++ l₂) = strJoin l₁ ++ strJoin l₂ := by
  induction l₁ with
  | nil => simp [strJoin]
  | cons x xs ih => simp [strJoin, List.foldr] at ih ⊢; simp [ih]

lemma foldl_append_eq_strJoin (l : List (Str × Str)) (acc : Str) :
    l.foldl (fun a t => a ++ turnBlock t) acc = acc ++ strJoin (l.map turnBlock) := by
  induction l generalizing acc with
  | nil => simp [strJoin]
  | cons x xs ih =>
      simp only [List.foldl, List.map, strJoin, List.foldr]
      rw [ih]
      simp [strJoin, List.append_assoc]

/-- **C2** — For every query `q` and history `h`, `get_prompt q h` is exactly
the concatenation of `h.length + 1` instruction/response blocks: one block
per historical turn (instruction = old query, response = old answer), in
original chronological order, followed by a final block containing `q` with
an empty response slot; with empty history this is the single final block
containing only `q`. -/
theorem get_prompt_blocks (q : Str) (h : List (Str × Str)) :
    get_prompt q h = strJoin (h.map turnBlock ++ [finalBlock q]) ∧
    (h.map turnBlock ++ [finalBlock q]).length = h.length + 1 := by
  constructor
  · unfold get_prompt
    rcases h with _ | ⟨x, xs⟩
    · simp [strJoin]
    · simp only [List.isEmpty_cons, if_neg]
      rw [foldl_append_eq_strJoin, strJoin_append]
      simp [strJoin]
  · simp

/-! ## GenerationParameters resolution (api.py lines 94-103, 149-158) -/

/-- The process-wide `generation_kwargs` dict, restricted to the three
fields the endpoints resolve.  A missing dict key is `none`. -/
structure GenParams where
  max_length : Option Nat := none
  top_p : Option ℚ := none
  temperature : Option ℚ := none
deriving DecidableEq, Repr

/-- The optional sampling fields of a `/chat` or `/stream_chat` request
body (`json_post_list.get(...)` returns `None` for an absent key). -/
structure ChatRequestParams where
  max_generate_length : Option Nat := none
  top_p : Option ℚ := none
  temperature : Option ℚ := none
deriving DecidableEq, Repr

/-- Parameter resolution performed identically by `create_item`
(api.py lines 95-103) and `stream_chat` (lines 150-158): three successive
in-place updates of the global `generation_kwargs` dict, each of the form
`generation_kwargs[k] = request.get(k, generation_kwargs.get(k, fallback))`.
The returned record is both the parameter set used for this generation and
the new process-wide default. -/
def resolveGenerationKwargs (req : ChatRequestParams) (g : GenParams) : GenParams :=
  let g1 := { g with max_length := some (req.max_generate_length.getD (g.max_length.getD 1024)) }
  let g2 := { g1 with top_p := some (req.top_p.getD (g1.top_p.getD (95 / 100))) }
  { g2 with temperature := some (req.temperature.getD (g2.temperature.getD (8 / 10))) }

/-- The sampling fields of an OpenAI-style `ChatCompletionRequest`
(api.py lines 255-261). -/
structure OpenAIRequestParams where
  temperature : Option ℚ := none
  top_p : Option ℚ := none
  max_length : Option Nat := none
deriving DecidableEq, Repr

/-- The generation parameters `create_chat_completion` (api.py lines
297-353) actually uses: the handler body never reads `request.temperature`,
`request.top_p` or `request.max_length`, so the current process-wide
`generation_kwargs` is used unchanged. -/
def openaiEffectiveParams (_req : OpenAIRequestParams) (g : GenParams) : GenParams :=
  g

/-- **C4 counterexample** — on `/v1/chat/completions` a request-supplied
`temperature` of 1/10 does not override the process-wide default 8/10: the
effective parameters are the untouched defaults, so the claimed resolution
order (request value first) fails on this endpoint. -/
theorem openai_params_ignore_request :
    (openaiEffectiveParams { temperature := some (1 / 10) }
        { temperature := some (8 / 10) }).temperature = some (8 / 10) ∧
    (some (8 / 10) : Option ℚ) ≠ some (1 / 10) := by
  constructor
  · rfl
  · intro hcon
    rw [Option.some_inj] at hcon
    norm_num at hcon

/-- **C4 (amended)** — on `/chat` and `/stream_chat`, each of max generate
length, top_p and temperature resolves as request value → current
process-wide default → hardcoded fallback (1024, 0.95, 0.8), and the
resolved record is the new process-wide default; `/v1/chat/completions`
ignores the request-supplied sampling fields and uses the current
process-wide defaults unchanged. -/
theorem generation_param_resolution (req : ChatRequestParams)
    (oreq : OpenAIRequestParams) (g : GenParams) :
    resolveGenerationKwargs req g =
      { max_length := some (req.max_generate_length.getD (g.max_length.getD 1024)),
        top_p := some (req.top_p.getD (g.top_p.getD (95 / 100))),
        temperature := some (req.temperature.getD (g.temperature.getD (8 / 10))) } ∧
    openaiEffectiveParams oreq g = g := by
  constructor
  · rfl
  · rfl

/-! ## Tokenizer context-window update (api.py lines 104-108, 159-163) -/

/-- The window update both `/chat` and `/stream_chat` perform after
parameter resolution:

```
if tokenizer.model_max_length is None or
   tokenizer.model_max_length > generation_kwargs["max_length"]:
    tokenizer.model_max_length = generation_kwargs["max_length"]
```
-/
def updateModelMaxLength (mml : Option Nat) (maxLength : Nat) : Option Nat :=
  match mml with
  | none => some maxLength
  | some w => if w > maxLength then some maxLength else some w

/-- **C1 counterexample** — with the tokenizer window at its startup value
1024 and a request demanding `max_generate_length = 2048`, the resolved max
length is 2048 but the window is left at 1024: the effective max length
exceeds the window and the window is not enlarged to match the request. -/
theorem window_not_enlarged :
    (resolveGenerationKwargs { max_generate_length := some 2048 } {}).max_length
      = some 2048 ∧
    updateModelMaxLength (some 1024) 2048 = some 1024 ∧
    ¬(2048 ≤ 1024) := by
  refine ⟨?_, by decide, by decide⟩
  rfl

/-- **C1 (amended)** — after parameter resolution the tokenizer's context
window never exceeds the effective max generate length: an unset window, or
one larger than the request's resolved length, is reduced to that length;
the window is never enlarged, so a request demanding more than the current
window leaves the window unchanged (the max length then exceeds the
window). -/
theorem window_update_shrinks (mml : Option Nat) (maxLength : Nat) (w' : Nat)
    (h : updateModelMaxLength mml maxLength = some w') :
    w' ≤ maxLength ∧ (∀ w, mml = some w → w' ≤ w) := by
  cases mml with
  | none =>
      simp [updateModelMaxLength] at h
      subst h
      exact ⟨le_refl _, by intro w hw; cases hw⟩
  | some w =>
      simp only [updateModelMaxLength] at h
      by_cases hgt : w > maxLength
      · rw [if_pos hgt] at h
        injection h with h; subst h
        exact ⟨le_refl _, by intro v hv; injection hv with hv; omega⟩
      · rw [if_neg hgt] at h
        injection h with h; subst h
        exact ⟨by omega, by intro v hv; injection hv with hv; omega⟩

/-- Witness for `window_update_shrinks` at `mml = some 1024`,
`maxLength = 512`. -/
theorem window_update_shrinks_witness :
    updateModelMaxLength (some 1024) 512 = some 512 ∧
    512 ≤ 512 ∧ (∀ w, (some 1024 : Option Nat) = some w → 512 ≤ w) := by
  have h : updateModelMaxLength (some 1024) 512 = some 512 := by decide
  exact ⟨h, window_update_shrinks (some 1024) 512 512 h⟩

/-! ## OpenAI-compatible request preprocessing (api.py lines 245-321) -/

/-- `ChatMessage.role` (api.py line 246): `Literal["user", "assistant", "system"]`. -/
inductive Role where
  | user
  | assistant
  | system
deriving DecidableEq, Repr

/-- `ChatMessage` (api.py lines 245-247). -/
structure ChatMessage where
  role : Role
  content : Str
deriving DecidableEq, Repr

/-- The two ways `create_chat_completion` can fail before generation:
`request.messages[-1]` on an empty list raises `IndexError` (an unhandled
server error), and a last message whose role is not `user` raises
`HTTPException(status_code=400)`. -/
inductive ApiError where
  | indexError
  | badRequest400
deriving DecidableEq, Repr

/-- The pair-collection loop of `create_chat_completion` (api.py lines
311-321), run only when `len(prev_messages)` is even:
`for i in range(0, len, 2)` reads messages at `i` and `i+1`, appending
`[content_i, content_{i+1}]` only when the roles are (`user`, `assistant`).
On an even-length list the strided index loop is the same as consuming two
messages at a time. -/
def collectPairs : List ChatMessage → List (Str × Str)
  | u :: a :: rest =>
      (if u.role = Role.user ∧ a.role = Role.assistant then
        [(u.content, a.content)] else []) ++ collectPairs rest
  | _ => []

/-- History reconstruction (api.py lines 309-321): `history = []`, filled by
the pair loop only when the prior-message count is even. -/
def foldHistory (prev : List ChatMessage) : List (Str × Str) :=
  if prev.length % 2 = 0 then collectPairs prev else []

/-- The pre-generation phase of `create_chat_completion` (api.py lines
301-321): index the last message (IndexError on an empty list), reject with
HTTP 400 unless its role is `user`, pop a leading `system` message and
prepend its content to the query, and fold the remaining prior messages
into history.  Returns the query text and reconstructed history handed to
generation. -/
def createChatPreprocess (messages : List ChatMessage) :
    Except ApiError (Str × List (Str × Str)) :=
  match messages.getLast? with
  | none => .error .indexError
  | some last =>
    if last.role ≠ Role.user then .error .badRequest400
    else
      let query := last.content
      let prev := messages.dropLast
      match prev with
      | m :: rest =>
          if m.role = Role.system then .ok (m.content ++ query, foldHistory rest)
          else .ok (query, foldHistory prev)
      | [] => .ok (query, foldHistory prev)

/-- **C9** — a `/v1/chat/completions` request with an empty `messages` list
hits `request.messages[-1]` and raises `IndexError` (an unhandled server
error), which is distinct from the HTTP 400 validation rejection; the role
check is only reached when `messages` is non-empty. -/
theorem empty_messages_index_error :
    createChatPreprocess [] = .error .indexError ∧
    ApiError.indexError ≠ ApiError.badRequest400 := by
  constructor
  · rfl
  · decide

/-- **C5** — for a non-empty `messages` list, `create_chat_completion`
rejects with HTTP 400 before any generation when the last message's role is
not `user`, and passes validation (reaching generation with some query and
history) when it is `user`. -/
theorem last_role_validation (messages : List ChatMessage) (last : ChatMessage)
    (hlast : messages.getLast? = some last) :
    (last.role ≠ Role.user → createChatPreprocess messages = .error .badRequest400) ∧
    (last.role = Role.user → ∃ out, createChatPreprocess messages = .ok out) := by
  constructor
  · intro hrole
    unfold createChatPreprocess
    rw [hlast]
    simp [hrole]
  · intro hrole
    unfold createChatPreprocess
    rw [hlast]
    simp only [hrole, ne_eq, not_true_eq_false, if_false, ite_not]
    rcases messages.dropLast with _ | ⟨m, rest⟩
    · exact ⟨_, rfl⟩
    · by_cases hm : m.role = Role.system
      · simp [hm]
      · simp [hm]

/-- Witness for `last_role_validation`: a one-message list ending in a
`user` message passes validation, and one ending in an `assistant` message
is rejected with 400. -/
theorem last_role_validation_witness :
    (createChatPreprocess [⟨Role.user, "Hi".data⟩] = .ok ("Hi".data, []) ∧
      createChatPreprocess [⟨Role.assistant, "Hi".data⟩] = .error .badRequest400) := by
  constructor
  · obtain ⟨out, hout⟩ :=
      (last_role_validation [⟨Role.user, "Hi".data⟩] ⟨Role.user, "Hi".data⟩ rfl).2 rfl
    rw [hout]
    have : createChatPreprocess [⟨Role.user, "Hi".data⟩] = .ok ("Hi".data, []) := by rfl
    rw [this] at hout
    injection hout with h
    rw [h]
  · exact (last_role_validation [⟨Role.assistant, "Hi".data⟩]
      ⟨Role.assistant, "Hi".data⟩ rfl).1 (by decide)

/-- Two-at-a-time chunking of a message list, the shape traversed by the
strided index loop `for i in range(0, len, 2)`. -/
def chunkPairs : List ChatMessage → List (ChatMessage × ChatMessage)
  | u :: a :: rest => (u, a) :: chunkPairs rest
  | _ => []

/-- Keep a chunk only when its roles are (`user`, `assistant`); the
folded history entry is the pair of contents. -/
def keepUserAssistant (p : ChatMessage × ChatMessage) : Option (Str × Str) :=
  if p.1.role = Role.user ∧ p.2.role = Role.assistant then
    some (p.1.content, p.2.content)
  else
    none

lemma collectPairs_eq_filterMap (l : List ChatMessage) :
    collectPairs l = (chunkPairs l).filterMap keepUserAssistant := by
  induction l using collectPairs.induct with
  | case1 u a rest ih =>
      by_cases h : u.role = Role.user ∧ a.role = Role.assistant
      · simp [collectPairs, chunkPairs, List.filterMap, keepUserAssistant, h, ih]
      · simp [collectPairs, chunkPairs, List.filterMap, keepUserAssistant, h, ih]
  | case2 l h =>
      rcases l with _ | ⟨x, _ | ⟨y, rest⟩⟩
      · simp [collectPairs, chunkPairs]
      · simp [collectPairs, chunkPairs]
      · exact absurd rfl (h x y rest)

lemma createChatPreprocess_concat (ms : List ChatMessage) (last : ChatMessage) :
    createChatPreprocess (ms ++ [last]) =
      (if last.role ≠ Role.user then .error .badRequest400
       else match ms with
         | m :: rest =>
             if m.role = Role.system then
               .ok (m.content ++ last.content, foldHistory rest)
             else
               .ok (last.content, foldHistory ms)
         | [] => .ok (last.content, foldHistory [])) := by
  unfold createChatPreprocess
  rw [List.getLast?_concat, List.dropLast_concat]
  cases ms <;> rfl

/-- **C6** — on `/v1/chat/completions`, a leading `system` message among the
prior messages has its content prepended to the query and is excluded from
history reconstruction; the remaining prior messages are folded as
consecutive (user, assistant) pairs in order, chunks with other role
combinations are silently dropped, and an odd prior-message count commits
no pairs (empty history) — in every case the request is accepted, not
errored. -/
theorem system_prepend_and_pairing (s q : Str) (mid : List ChatMessage) :
    createChatPreprocess (⟨Role.system, s⟩ :: mid ++ [⟨Role.user, q⟩]) =
      .ok (s ++ q, foldHistory mid) ∧
    (mid.length % 2 = 1 → foldHistory mid = []) ∧
    foldHistory mid =
      (if mid.length % 2 = 0 then (chunkPairs mid).filterMap keepUserAssistant else []) := by
  refine ⟨?_, ?_, ?_⟩
  · rw [show (⟨Role.system, s⟩ :: mid ++ [⟨Role.user, q⟩] : List ChatMessage) =
      (⟨Role.system, s⟩ :: mid) ++ [⟨Role.user, q⟩] by simp]
    rw [createChatPreprocess_concat]
    simp
  · intro hodd
    have hne : ¬(mid.length % 2 = 0) := by omega
    unfold foldHistory
    simp [hne]
  · unfold foldHistory
    by_cases he : mid.length % 2 = 0
    · simp [he, collectPairs_eq_filterMap]
    · simp [he]

/-- Witness for `system_prepend_and_pairing` at a concrete request: system
prompt `"S"`, one prior malformed (odd-count) message, final user query
`"Q"`. -/
theorem system_prepend_and_pairing_witness :
    createChatPreprocess
        [⟨Role.system, "S".data⟩, ⟨Role.assistant, "A".data⟩, ⟨Role.user, "Q".data⟩] =
      .ok ("S".data ++ "Q".data, foldHistory [⟨Role.assistant, "A".data⟩]) ∧
    foldHistory [⟨Role.assistant, "A".data⟩] = [] := by
  have h := system_prepend_and_pairing "S".data "Q".data [⟨Role.assistant, "A".data⟩]
  exact ⟨h.1, h.2.1 (by decide)⟩

/-! ## Query text passed to prompt rendering, per endpoint (C7) -/

/-- `/chat` (api.py line 110-111): `prompt = prompt.lstrip("\n")` is the
text passed to `get_prompt`. -/
def chatQueryText (prompt : Str) : Str := pyLstripChars ['\n'] prompt

/-- `/stream_chat` (api.py line 176): `get_prompt(prompt, history)` is
called on the raw request prompt, with no stripping. -/
def streamChatQueryText (prompt : Str) : Str := prompt

/-- Streaming `/v1/chat/completions` (api.py lines 324, 380): `predict`
calls `get_prompt(query, history)` on the query as reconstructed from the
messages, with no stripping. -/
def openaiStreamQueryText (query : Str) : Str := query

/-- Non-streaming `/v1/chat/completions` (api.py line 329):
`query.lstrip("\n").strip()` is the text passed to `get_prompt`. -/
def openaiNonStreamQueryText (query : Str) : Str :=
  pyStrip (pyLstripChars ['\n'] query)

/-- The stripping the spec describes: surrounding (leading and trailing)
newlines removed from the raw query.  Named from the spec's words, for
comparison with the per-endpoint definitions above. -/
def specStripNewlines (s : Str) : Str :=
  pyRstripChars ['\n'] (pyLstripChars ['\n'] s)

/-- **C7 counterexample** — for the raw query `"\nhi\n"`, `/stream_chat`
passes it to prompt rendering completely unstripped, and `/chat` keeps the
trailing newline; neither equals the claimed
"raw query with surrounding newlines removed" (`"hi"`). -/
theorem query_not_stripped_everywhere :
    streamChatQueryText "\nhi\n".data = "\nhi\n".data ∧
    chatQueryText "\nhi\n".data = "hi\n".data ∧
    specStripNewlines "\nhi\n".data = "hi".data ∧
    "\nhi\n".data ≠ "hi".data ∧
    "hi\n".data ≠ "hi".data := by
  refine ⟨rfl, by decide, by decide, by decide, by decide⟩

lemma dropWhile_getLast?_eq (p : Char → Bool) (l : Str)
    (h : l.dropWhile p ≠ []) : (l.dropWhile p).getLast? = l.getLast? := by
  induction l with
  | nil => simp at h
  | cons a t ih =>
      by_cases hp : p a
      · rw [List.dropWhile_cons_of_pos hp] at h ⊢
        rw [ih h]
        have ht : t ≠ [] := by
          intro hnil
          rw [hnil] at h
          simp at h
        rcases t with _ | ⟨b, t⟩
        · exact absurd rfl ht
        · rw [List.getLast?_cons_cons]
      · rw [List.dropWhile_cons_of_neg hp]

/-- **C7 (amended)** — only `/chat` and non-streaming `/v1/chat/completions`
strip anything from the raw query before prompt rendering: `/chat` removes
leading newlines only (a trailing newline survives whenever the query
contains any non-newline character), non-streaming `/v1/chat/completions`
removes leading newlines and then surrounding whitespace, while
`/stream_chat` and streaming `/v1/chat/completions` pass the raw query
through unchanged. -/
theorem query_stripping_per_endpoint (q : Str) :
    chatQueryText q = pyLstripChars ['\n'] q ∧
    streamChatQueryText q = q ∧
    openaiStreamQueryText q = q ∧
    openaiNonStreamQueryText q = pyStrip (pyLstripChars ['\n'] q) ∧
    (chatQueryText q ≠ [] → (chatQueryText q).getLast? = q.getLast?) := by
  refine ⟨rfl, rfl, rfl, rfl, ?_⟩
  intro hne
  exact dropWhile_getLast?_eq _ q hne

/-- Witness for `query_stripping_per_endpoint` at `q = "\nhi\n"`: `/chat`
keeps the trailing newline of the raw query. -/
theorem query_stripping_per_endpoint_witness :
    chatQueryText "\nhi\n".data ≠ [] ∧
    (chatQueryText "\nhi\n".data).getLast? = "\nhi\n".data.getLast? := by
  have hne : chatQueryText "\nhi\n".data ≠ [] := by decide
  exact ⟨hne, (query_stripping_per_endpoint "\nhi\n".data).2.2.2.2 hne⟩

/-! ## Response post-processing (api.py lines 125 and 341) -/

/-- The string argument of the trailing `rstrip` call,
`"\n### Response:"`.  Python's `rstrip` treats it as a character set. -/
def responseStripArg : Str := "\n### Response:".data

/-- Post-processing of the decoded model output, identical on `/chat`
(api.py line 125) and non-streaming `/v1/chat/completions` (line 341):
`response.lstrip("\n").rstrip("\n### Response:")`. -/
def postProcessResponse (s : Str) : Str :=
  pyRstripChars responseStripArg (pyLstripChars ['\n'] s)

/-- Removal of the literal suffix `"\n### Response:"`, named from the
spec's words, for comparison with the character-set semantics the code
actually has. -/
def stripLiteralSuffix (suf s : Str) : Str :=
  if suf.isSuffixOf s then s.take (s.length - suf.length) else s

lemma rstrip_decomposition (cs : List Char) (s : Str) :
    (∃ t, s = pyRstripChars cs s ++ t ∧ ∀ c ∈ t, c ∈ cs) ∧
    (∀ c, (pyRstripChars cs s).getLast? = some c → c ∉ cs) := by
  constructor
  · refine ⟨(s.reverse.takeWhile (· ∈ cs)).reverse, ?_, ?_⟩
    · rw [pyRstripChars]
      rw [← List.reverse_append, List.takeWhile_append_dropWhile, List.reverse_reverse]
    · intro c hc
      rw [List.mem_reverse] at hc
      have := List.takeWhile_subset (l := s.reverse) (p := (· ∈ cs)) hc
      have hp := List.mem_takeWhile_imp hc
      simpa using hp
  · intro c hc hmem
    rw [pyRstripChars, List.getLast?_reverse] at hc
    have h0 : (s.reverse.dropWhile (· ∈ cs)).head? = some c := hc
    rcases hd : s.reverse.dropWhile (· ∈ cs) with _ | ⟨a, t⟩
    · rw [hd] at h0; simp at h0
    · rw [hd] at h0
      simp only [List.head?_cons, Option.some_inj] at h0
      subst h0
      have := List.head?_dropWhile_not (p := (· ∈ cs)) (l := s.reverse)
      rw [hd] at this
      simp only [List.head?_cons] at this
      simp [hmem] at this

/-- **C10** — the post-processing applied to every `/chat` and non-streaming
`/v1/chat/completions` response removes the longest trailing run of
characters drawn from the character set of `"\n### Response:"` (not the
literal suffix): the stripped tail consists solely of characters of that
set and the remaining text never ends in one; in particular a response
ending in `"open"` loses those four characters even though it does not end
with the literal suffix, which literal-suffix removal would have left
untouched. -/
theorem response_rstrip_char_set (s : Str) :
    (∃ t, s = pyRstripChars responseStripArg s ++ t ∧ ∀ c ∈ t, c ∈ responseStripArg) ∧
    (∀ c, (pyRstripChars responseStripArg s).getLast? = some c → c ∉ responseStripArg) ∧
    postProcessResponse "well-open".data = "well-".data ∧
    stripLiteralSuffix responseStripArg "well-open".data = "well-open".data ∧
    ('o' ∈ responseStripArg ∧ 'p' ∈ responseStripArg ∧ 'e' ∈ responseStripArg ∧
      'n' ∈ responseStripArg ∧ 'w' ∉ responseStripArg) := by
  refine ⟨(rstrip_decomposition responseStripArg s).1,
          (rstrip_decomposition responseStripArg s).2, ?_, ?_, ?_⟩
  · decide
  · decide
  · decide

/-- Witness for `response_rstrip_char_set` at `s = "ok\n"`. -/
theorem response_rstrip_char_set_witness :
    pyRstripChars responseStripArg "ok\n".data = "ok".data ∧
    (∃ t, "ok\n".data = pyRstripChars responseStripArg "ok\n".data ++ t ∧
      ∀ c ∈ t, c ∈ responseStripArg) := by
  exact ⟨by decide, (response_rstrip_char_set "ok\n".data).1⟩

/-! ## `/stream_chat` SSE event generator (api.py lines 168-222) -/

/-- One SSE event as built by `event_generator`: the event name
(`"new_message"` or `"finish"`), the `response` payload field (the current
text chunk) and the `finish` flag; the `history` payload field is the
request history plus the turn `(prompt, accumulated_text)`. -/
structure SSEEvent where
  event : Str
  response : Str
  accumulated : Str
  finish : Bool
deriving DecidableEq, Repr

/-- A `new_message` event (api.py lines 197-207): payload
`{response: new_text, history: history + [(prompt, last_msg)], finish: False}`. -/
def mkNewMessage (newText lastMsg : Str) : SSEEvent :=
  { event := "new_message".data, response := newText,
    accumulated := lastMsg, finish := false }

/-- The `finish` event (api.py lines 211-221): payload
`{response: new_text, history: history + [(prompt, last_msg)], finish: True}`. -/
def mkFinish (newText lastMsg : Str) : SSEEvent :=
  { event := "finish".data, response := newText,
    accumulated := lastMsg, finish := true }

/-- The `for new_text in streamer` loop of `event_generator` (api.py lines
190-221), with the disconnect poll `await request.is_disconnected()`
modelled as a predicate `disc` on the iteration index: each iteration first
pulls a fragment, then breaks if the client is seen disconnected, else
yields a `new_message` event and accumulates; after the loop (normal
completion or break) the `finish` event is yielded unconditionally with the
last pulled fragment as `response`. -/
def eventLoop (disc : Nat → Bool) : List Str → Nat → Str → Str → List SSEEvent
  | [], _, lastMsg, lastText => [mkFinish lastText lastMsg]
  | t :: rest, i, lastMsg, _ =>
      if disc i then [mkFinish t lastMsg]
      else mkNewMessage t lastMsg :: eventLoop disc rest (i + 1) (lastMsg ++ t) t

/-- `event_generator` (api.py lines 168-222) restricted to its emitted
events.  On an empty fragment stream the variable `new_text` is referenced
before assignment at line 212 (a `NameError`), modelled as `none`. -/
def eventGenerator (disc : Nat → Bool) (frags : List Str) : Option (List SSEEvent) :=
  match frags with
  | [] => none
  | t :: rest => some (eventLoop disc (t :: rest) 0 [] [])

/-- **C8 counterexample** — with fragments `["a", "b"]` and the client seen
disconnected at the second poll (after one `new_message` event has been
emitted), the generator still emits a further event: the terminal `finish`
event, carrying the fragment pulled when the disconnect was detected. -/
theorem finish_emitted_after_disconnect :
    eventGenerator (fun i => decide (1 ≤ i)) ["a".data, "b".data] =
      some [mkNewMessage "a".data [], mkFinish "b".data "a".data] ∧
    (mkFinish "b".data "a".data).event = "finish".data ∧
    (mkFinish "b".data "a".data).finish = true := by
  refine ⟨?_, rfl, rfl⟩
  rfl

/-- The `new_message` events produced for a fragment list starting from
accumulated text `acc`: the `j`-th carries fragment `j` and the
concatenation of the fragments before it. -/
def newMessagesFor : List Str → Str → List SSEEvent
  | [], _ => []
  | t :: rest, acc => mkNewMessage t acc :: newMessagesFor rest (acc ++ t)

lemma eventLoop_disconnect (disc : Nat → Bool) (frags : List Str) (n : Nat)
    (acc lastText : Str) (i : Nat) (hi : i < frags.length)
    (hd : disc (n + i) = true) (hprev : ∀ j < i, disc (n + j) = false) :
    eventLoop disc frags n acc lastText =
      newMessagesFor (frags.take i) acc ++
        [mkFinish (frags.get ⟨i, hi⟩) (acc ++ strJoin (frags.take i))] := by
  induction frags generalizing n acc lastText i with
  | nil => simp at hi
  | cons t rest ih =>
      cases i with
      | zero =>
          have h0 : disc n = true := by simpa using hd
          simp [eventLoop, h0, newMessagesFor, strJoin]
      | succ i' =>
          have h0 : disc n = false := by
            have := hprev 0 (Nat.succ_pos i')
            simpa using this
          have hi' : i' < rest.length := by simpa using hi
          have hd' : disc (n + 1 + i') = true := by
            rw [show n + 1 + i' = n + (i' + 1) by omega]
            exact hd
          have hprev' : ∀ j < i', disc (n + 1 + j) = false := by
            intro j hj
            rw [show n + 1 + j = n + (j + 1) by omega]
            exact hprev (j + 1) (by omega)
          rw [eventLoop]
          rw [if_neg (by simp [h0])]
          rw [ih (n + 1) (acc ++ t) t i' hi' hd' hprev']
          simp [newMessagesFor, strJoin, List.append_assoc]

/-- **C8 (amended)** — in a `/stream_chat` session where the client
disconnect is first detected at poll `i` (after `i` `new_message` events
have been emitted), no further `new_message` event is emitted; the
generator nevertheless emits exactly one more event, the terminal `finish`
event, before stopping. -/
theorem stream_chat_disconnect_behavior (disc : Nat → Bool) (frags : List Str)
    (i : Nat) (hi : i < frags.length) (hd : disc i = true)
    (hprev : ∀ j < i, disc j = false) :
    eventGenerator disc frags =
      some (newMessagesFor (frags.take i) [] ++
        [mkFinish (frags.get ⟨i, hi⟩) (strJoin (frags.take i))]) := by
  rcases frags with _ | ⟨t, rest⟩
  · simp at hi
  · rw [show eventGenerator disc (t :: rest) =
        some (eventLoop disc (t :: rest) 0 [] []) from rfl]
    rw [eventLoop_disconnect disc (t :: rest) 0 [] [] i hi (by simpa using hd)
      (by intro j hj; simpa using hprev j hj)]
    simp

/-- Witness for `stream_chat_disconnect_behavior` with fragments
`["a", "b"]` and disconnect first seen at poll 1. -/
theorem stream_chat_disconnect_behavior_witness :
    eventGenerator (fun i => decide (1 ≤ i)) ["a".data, "b".data] =
      some (newMessagesFor ["a".data] [] ++
        [mkFinish "b".data (strJoin ["a".data])]) := by
  have h := stream_chat_disconnect_behavior (fun i => decide (1 ≤ i))
    ["a".data, "b".data] 1 (by decide) (by decide) (by decide)
  simpa using h

/-! ## OpenAI-compatible finish reason (api.py lines 337-353, 356-416) -/

/-- `Literal["stop", "length"]`, the declared type of `finish_reason`
(api.py lines 267, 273). -/
inductive FinishReason where
  | stop
  | length
deriving DecidableEq, Repr

/-- `DeltaMessage` (api.py lines 250-252). -/
structure DeltaMessage where
  role : Option Role := none
  content : Option Str := none
deriving DecidableEq, Repr

/-- `ChatCompletionResponseStreamChoice` (api.py lines 270-273). -/
structure StreamChoice where
  delta : DeltaMessage
  finish_reason : Option FinishReason
deriving DecidableEq, Repr

/-- One element of the SSE stream `predict` yields: a JSON-encoded chunk or
the literal `[DONE]` marker. -/
inductive WireItem where
  | chunk (c : StreamChoice)
  | done
deriving DecidableEq, Repr

/-- How one generation run ended, as the model capability reports it: the
decoded text fragments, and whether the run terminated because the model
emitted its end-of-sequence token (`true`) or because the length bound was
reached (`false`).  The handlers consume only the fragment text — the
`TextIteratorStreamer` surfaces no end-of-sequence signal and `predict`
never inspects one. -/
structure GenOutcome where
  fragments : List Str
  endedByEos : Bool
deriving DecidableEq, Repr

/-- The chunk stream of `predict` (api.py lines 356-416): an opening chunk
with `role=assistant` and empty delta, one chunk per non-empty fragment
(`if len(new_text) == 0: continue`), a terminal chunk with empty delta and
`finish_reason="stop"` (lines 405-407, written literally, with no
dependence on how generation ended), then the `[DONE]` marker. -/
def predictEvents (o : GenOutcome) : List WireItem :=
  .chunk { delta := { role := some Role.assistant }, finish_reason := none } ::
    ((o.fragments.filter (· ≠ [])).map
      (fun t => .chunk { delta := { content := some t }, finish_reason := none })
      ++ [.chunk { delta := {}, finish_reason := some FinishReason.stop }, .done])

/-- The `finish_reason` of the single choice returned by the non-streaming
branch of `create_chat_completion` (api.py lines 343-347): the literal
`"stop"`, with no dependence on how generation ended. -/
def nonStreamFinishReason (_o : GenOutcome) : FinishReason :=
  FinishReason.stop

/-- **C3 counterexample** — a streaming generation that terminates by
hitting the max-length bound without emitting the end-of-sequence token
(`endedByEos = false`) still gets a terminal chunk with
`finish_reason = "stop"`, not `"length"`; likewise the non-streaming
response reports `"stop"`. -/
theorem length_hit_reports_stop :
    predictEvents { fragments := ["x".data], endedByEos := false } =
      [.chunk { delta := { role := some Role.assistant }, finish_reason := none },
       .chunk { delta := { content := some "x".data }, finish_reason := none },
       .chunk { delta := {}, finish_reason := some FinishReason.stop },
       .done] ∧
    nonStreamFinishReason { fragments := ["x".data], endedByEos := false } =
      FinishReason.stop ∧
    FinishReason.stop ≠ FinishReason.length := by
  refine ⟨?_, rfl, by decide⟩
  rfl

/-- **C3 (amended)** — the terminal finish reason is always `"stop"`: the
wire output of both the streaming and the non-streaming
`/v1/chat/completions` paths is independent of whether the model emitted
its end-of-sequence token, and the chunk stream always ends with a
`finish_reason="stop"` chunk followed by `[DONE]`; `"length"` is never
reported. -/
theorem finish_reason_always_stop (frags : List Str) (e₁ e₂ : Bool)
    (o : GenOutcome) :
    predictEvents { fragments := frags, endedByEos := e₁ } =
      predictEvents { fragments := frags, endedByEos := e₂ } ∧
    nonStreamFinishReason o = FinishReason.stop ∧
    (∃ pre, predictEvents o =
      pre ++ [.chunk { delta := {}, finish_reason := some FinishReason.stop }, .done]) ∧
    (∀ c, WireItem.chunk c ∈ predictEvents o →
      c.finish_reason ≠ some FinishReason.length) := by
  refine ⟨rfl, rfl, ?_, ?_⟩
  · refine ⟨.chunk { delta := { role := some Role.assistant }, finish_reason := none } ::
      (o.fragments.filter (· ≠ [])).map
        (fun t => .chunk { delta := { content := some t }, finish_reason := none }), ?_⟩
    simp [predictEvents]
  · intro c hc
    simp only [predictEvents, List.mem_cons, List.mem_append, List.mem_map,
      List.mem_singleton] at hc
    rcases hc with h | ⟨⟨t, ht, h⟩ | h | h | h⟩
    · injection h with h
      rw [h]
      simp
    · injection h with h
      rw [← h]
      simp
    · injection h with h
      rw [h]
      simp
    · exact absurd h (by simp)
    · simp at h

/-- Witness for `finish_reason_always_stop` at the empty fragment stream:
the opening role chunk is in the stream and its finish reason is not
`"length"`. -/
theorem finish_reason_always_stop_witness :
    (WireItem.chunk { delta := { role := some Role.assistant }, finish_reason := none } ∈
      predictEvents { fragments := [], endedByEos := true }) ∧
    (WireItem.chunk { delta := { role := some Role.assistant }, finish_reason := none } ∈
        predictEvents { fragments := [], endedByEos := true } →
      ({ delta := { role := some Role.assistant }, finish_reason := none } :
        StreamChoice).finish_reason ≠ some FinishReason.length) := by
  have hmem : WireItem.chunk
      { delta := { role := some Role.assistant }, finish_reason := none } ∈
      predictEvents { fragments := [], endedByEos := true } := by decide
  exact ⟨hmem, fun _ => (finish_reason_always_stop [] true true
    { fragments := [], endedByEos := true }).2.2.2 _ hmem⟩
